import Mathlib

/-!
Shallow embedding of the pdftts reader (src/main.py, src/pdf_viewer.py):
the reading-order sorter of MainWindow._run_ocr, the segment playback loop
of TTSWorker.run, the speech-engine lifecycle (MainWindow._init_tts_engine,
_ensure_tts_engine_ready, the engine phase of _start_tts_with_segments,
on_tts_error, on_request_speak) and the highlight state of PDFViewer
(highlight_text_box, clear_highlights).

Numbers that are Python floats (OCR coordinates, confidences) are modelled
as rationals; asynchronous flags (stop_requested, segment_completed) are
modelled as oracles giving the value observed at each read.
-/

namespace Pdftts

/-! PDFViewer highlight state (src/pdf_viewer.py).

The argument of highlight_text_box is an arbitrary Python value, modelled by
PyVal. pyTruthy is Python truthiness for these values. -/

/-- Model of a Python runtime value, as far as highlight_text_box can observe it. -/
inductive PyVal : Type where
  | pyNone : PyVal
  | pyBool (b : Bool) : PyVal
  | pyInt (n : Int) : PyVal
  | pyFloat (q : ℚ) : PyVal
  | pyStr (s : String) : PyVal
  | pyList (xs : List PyVal) : PyVal
  | pyTuple (xs : List PyVal) : PyVal

/-- Python truthiness of a PyVal, as used by the check at pdf_viewer.py:191. -/
def pyTruthy : PyVal → Bool
  | .pyNone => false
  | .pyBool b => b
  | .pyInt n => decide (n ≠ 0)
  | .pyFloat q => decide (q ≠ 0)
  | .pyStr s => decide (s ≠ "")
  | .pyList xs => !xs.isEmpty
  | .pyTuple xs => !xs.isEmpty

/-- One element of box_coords passes the per-coordinate check at
pdf_viewer.py:193: it is a list or tuple of length 2. -/
def isCoordPair : PyVal → Bool
  | .pyList xs => decide (xs.length = 2)
  | .pyTuple xs => decide (xs.length = 2)
  | _ => false

/-- The validity check of PDFViewer.highlight_text_box (pdf_viewer.py:191-194):
box_coords is truthy, is a list, and all its elements are 2-element
lists or tuples.  (The source tests the negation with short-circuit or.) -/
def isValidBoxArg (v : PyVal) : Bool :=
  pyTruthy v &&
    (match v with
     | .pyList xs => xs.all isCoordPair
     | _ => false)

/-- The highlight-relevant state of a PDFViewer: its highlight_boxes list.
(update_page_view only reads this list, never writes it.) -/
structure PDFViewerState : Type where
  highlight_boxes : List PyVal

/-- PDFViewer.highlight_text_box (pdf_viewer.py:183-203): an invalid argument
clears highlight_boxes; a valid one replaces them with the single given box. -/
def highlight_text_box (st : PDFViewerState) (v : PyVal) : PDFViewerState :=
  if isValidBoxArg v then { st with highlight_boxes := [v] }
  else { st with highlight_boxes := [] }

/-- PDFViewer.clear_highlights (pdf_viewer.py:205-210): returns early when the
list is already empty, otherwise empties it. -/
def clear_highlights (st : PDFViewerState) : PDFViewerState :=
  if st.highlight_boxes.isEmpty then st else { st with highlight_boxes := [] }

/-! Reading-order sorter: the filtering and sorting inside
MainWindow._run_ocr (main.py:395-447). -/

/-- One well-formed detector output line: corner points, recognized text and
confidence (line[0], line[1][0], line[1][1] in the source). -/
structure OcrLine : Type where
  box : List (ℚ × ℚ)
  text : String
  conf : ℚ

/-- Mean of the y coordinates of the corner points (main.py:415-416). -/
def yCenter (box : List (ℚ × ℚ)) : ℚ :=
  ((box.map Prod.snd).sum) / (box.length : ℚ)

/-- Mean of the x coordinates of the corner points (main.py:418-419). -/
def xCenter (box : List (ℚ × ℚ)) : ℚ :=
  ((box.map Prod.fst).sum) / (box.length : ℚ)

/-- The confidence filter at main.py:413: keep strictly greater than 0.5. -/
def confKeep (l : OcrLine) : Bool :=
  decide ((1 : ℚ) / 2 < l.conf)

/-- One entry of the text_data list (main.py:421): box, text, confidence and
the two cached centroid coordinates. -/
structure TextDataEntry : Type where
  box : List (ℚ × ℚ)
  text : String
  conf : ℚ
  yc : ℚ
  xc : ℚ

/-- Building text_data (main.py:404-421): confidence filter, then the
centroids are computed and cached alongside box and text. -/
def mkTextData (lines : List OcrLine) : List TextDataEntry :=
  (lines.filter confKeep).map
    (fun l => ⟨l.box, l.text, l.conf, yCenter l.box, xCenter l.box⟩)

/-- The sort key of main.py:425-430 applied to a cached centroid:
row = floor(y/20) paired with the x centroid. -/
def centerKey (yc xc : ℚ) : ℤ × ℚ :=
  (Rat.floor (yc / 20), xc)

/-- Lexicographic less-or-equal on sort keys, the order Python uses to
compare the (row, x_center) tuples. -/
def lexLE (a b : ℤ × ℚ) : Bool :=
  decide (a.1 < b.1) || (decide (a.1 = b.1) && decide (a.2 ≤ b.2))

/-- The sort key of an entry, from its cached centroid fields
(item[3], item[4] in the source). -/
def entryKey (e : TextDataEntry) : ℤ × ℚ :=
  centerKey e.yc e.xc

/-- Comparison used to model text_data.sort(key=sort_key) (main.py:432). -/
def entryLE (a b : TextDataEntry) : Bool :=
  lexLE (entryKey a) (entryKey b)

/-- The sort key computed directly from a box, for stating properties of the
emitted segments. -/
def boxKey (box : List (ℚ × ℚ)) : ℤ × ℚ :=
  centerKey (yCenter box) (xCenter box)

/-- Python str.strip() on a character list: drop leading and trailing
whitespace. -/
def stripChars (cs : List Char) : List Char :=
  ((cs.dropWhile Char.isWhitespace).reverse.dropWhile Char.isWhitespace).reverse

/-- Python str.strip(): the string with leading and trailing whitespace
removed. -/
def pyStrip (s : String) : String :=
  ⟨stripChars s.data⟩

/-- The empty/whitespace text filter at main.py:438: text non-empty (truthy)
and still non-empty after stripping. -/
def keepText (e : TextDataEntry) : Bool :=
  (e.text != "") && (pyStrip e.text != "")

/-- text_data after sorting and the text filter (main.py:432-444). -/
def runOcrEntries (lines : List OcrLine) : List TextDataEntry :=
  ((mkTextData lines).mergeSort entryLE).filter keepText

/-- The sorter output of _run_ocr: the (filtered_text_segments,
filtered_ocr_boxes) pairs in their final order (main.py:434-447); the
order of a segment is its position in this list. -/
def runOcrSegments (lines : List OcrLine) : List (String × List (ℚ × ℚ)) :=
  (runOcrEntries lines).map (fun e => (e.text, e.box))

/-! TTSWorker.run (main.py:39-87).

The mutable cross-thread flags are modelled as oracles: for each segment i
the environment gives the value of stop_requested observed at the top of the
loop, and the values of segment_completed / stop_requested observed at the
c-th check of the inner polling loop. -/

/-- The signals TTSWorker emits, in emission order. -/
inductive Event : Type where
  | started (i : Nat) : Event
  | requestSpeak (text : String) (i : Nat) : Event
  | errorSeg (i : Nat) : Event
  | finishedSeg (i : Nat) : Event
  | finished : Event
deriving DecidableEq

/-- The polling loop of main.py:56-62: starting from counter c with fuel
300 - c, return the final value of timeout_counter, i.e. the number of
100 time-unit sleeps performed.  The loop continues while the completion
flag and the stop flag both read false and the counter is below 300. -/
def waitFrom (cf sf : Nat → Bool) : Nat → Nat → Nat
  | c, 0 => c
  | c, f + 1 => if cf c || sf c then c else waitFrom cf sf (c + 1) f

/-- The final timeout_counter of one per-segment wait (bound 300). -/
def waitCounter (cf sf : Nat → Bool) : Nat :=
  waitFrom cf sf 0 300

/-- Outcome of one per-segment wait, as classified by the checks at
main.py:64-70 run on the flags read at loop exit. -/
inductive WaitResult : Type where
  | completed : WaitResult
  | stopped : WaitResult
  | timeout : WaitResult
deriving DecidableEq

/-- Classify the wait: stop_requested wins (main.py:64), then timeout without
completion (main.py:67), otherwise the segment is treated as done. -/
def waitResult (cf sf : Nat → Bool) : WaitResult :=
  let n := waitCounter cf sf
  if sf n then WaitResult.stopped
  else if 300 ≤ n && !(cf n) then WaitResult.timeout
  else WaitResult.completed

/-- Observed flag behaviour for one loop iteration: stop_requested at the
loop top (main.py:44), and the two flags at each poll of the wait. -/
structure SegBehavior : Type where
  stopAtTop : Bool
  completedF : Nat → Bool
  stoppedF : Nat → Bool

/-- The wait outcome for one segment of the environment. -/
def segWait (b : SegBehavior) : WaitResult :=
  waitResult b.completedF b.stoppedF

/-- The index carried by text_segment_started at main.py:49-52: the segment
index itself, unless the process-global was_stopped flag is set, in which
case the source emits i - 1 for i greater than 0 and 0 otherwise. -/
def startIndex (wasStopped : Bool) (i : Nat) : Nat :=
  if wasStopped then (if 0 < i then i - 1 else 0) else i

namespace TTSWorker

/-- The loop body of TTSWorker.run from segment index i over the remaining
segments: emits started and request_speak, waits, then either breaks
(stop), breaks with an error signal (timeout), or emits finished-segment
and continues. -/
def runAux (w : Bool) (env : Nat → SegBehavior) : Nat → List String → List Event
  | _, [] => []
  | i, t :: rest =>
    if (env i).stopAtTop then []
    else
      Event.started (startIndex w i) ::
      Event.requestSpeak t i ::
      match segWait (env i) with
      | WaitResult.stopped => []
      | WaitResult.timeout => [Event.errorSeg i]
      | WaitResult.completed => Event.finishedSeg i :: runAux w env (i + 1) rest

/-- TTSWorker.run (main.py:39-87): the loop, then the finally block emits the
finished signal exactly once, last. w is the value of the process-global
was_stopped flag during this run. -/
def run (w : Bool) (env : Nat → SegBehavior) (segs : List String) : List Event :=
  runAux w env 0 segs ++ [Event.finished]

end TTSWorker

/-- The notification signals consumed by the UI (started / finished-segment /
error / finished); request_speak is the cross-thread hand-off, not a
notification. -/
def isNotif : Event → Bool
  | Event.requestSpeak _ _ => false
  | _ => true

/-- The notification trace of an emission list. -/
def notifs (t : List Event) : List Event :=
  t.filter isNotif

/-! Speech engine lifecycle (main.py:827-888) and the coordinator slots
(main.py:540-659, 740-825). -/

/-- The engine handle: which construction (if any) the current pyttsx3
engine object came from, and how many constructions have happened.  A
forced re-initialization is visible as a growth of initCount. -/
structure EngineState : Type where
  engine : Option Nat
  initCount : Nat
deriving DecidableEq

/-- Success or failure of each step of _init_tts_engine, as decided by the
external pyttsx3 resource. -/
structure InitEnv : Type where
  constructOk : Bool
  voicesOk : Bool
  setVoiceOk : Bool
  setRateOk : Bool
  pingOk : Bool

/-- MainWindow._init_tts_engine (main.py:827-873): construct the engine,
select a voice, set the rate, then the near-silent self-test; any failing
step lands in the except branch, which sets tts_engine to None and
returns False. -/
def init_tts_engine (st : EngineState) (env : InitEnv) : EngineState × Bool :=
  if env.constructOk then
    let st1 : EngineState := { engine := some st.initCount, initCount := st.initCount + 1 }
    if env.voicesOk && env.setVoiceOk && env.setRateOk && env.pingOk then (st1, true)
    else ({ st1 with engine := none }, false)
  else ({ st with engine := none }, false)

/-- Environment of _ensure_tts_engine_ready: whether the cheap property
probe succeeds, and the behaviour of a re-initialization if one happens. -/
structure EnsureEnv : Type where
  probeOk : Bool
  init : InitEnv

/-- MainWindow._ensure_tts_engine_ready (main.py:875-888): if there is no
engine, initialize; otherwise probe a property and re-initialize only when
the probe raises. -/
def ensure_tts_engine_ready (st : EngineState) (env : EnsureEnv) : EngineState × Bool :=
  match st.engine with
  | none => init_tts_engine st env.init
  | some _ => if env.probeOk then (st, true) else init_tts_engine st env.init

/-- Environment of the engine phase of _start_tts_with_segments: the first
readiness check, the pre-speak test, and the fallback re-initialization
with its second pre-speak test. -/
structure StartEnv : Type where
  ensure1 : EnsureEnv
  preSpeakOk : Bool
  reinit : InitEnv
  preSpeak2Ok : Bool

/-- The engine interactions of MainWindow._start_tts_with_segments
(main.py:476-527) when no old worker is still running: ensure readiness,
run the pre-speak test on the current engine, and only if that test fails
fall back to one forced re-initialization plus a second test.  Returns the
engine state and whether a new TTSWorker gets started. -/
def start_tts_engine_phase (eng : EngineState) (env : StartEnv) : EngineState × Bool :=
  let r1 := ensure_tts_engine_ready eng env.ensure1
  if !r1.2 then (r1.1, false)
  else if env.preSpeakOk then (r1.1, true)
  else
    let r2 := init_tts_engine r1.1 env.reinit
    if r2.2 then (r2.1, env.preSpeak2Ok) else (r2.1, false)

/-- The coordinator state touched by the slots: the identity of the current
worker (None after it is cleared), the global stopping flag, the engine
and the viewer highlight state. -/
structure MainState : Type where
  ttsWorker : Option Nat
  isStopping : Bool
  eng : EngineState
  viewer : PDFViewerState

/-- MainWindow.on_tts_error (main.py:648-659): clear the highlights; if the
sender is the current worker, drop the worker reference.  The engine is
not touched. -/
def on_tts_error (st : MainState) (senderIsCurrent : Bool) : MainState :=
  let st1 : MainState := { st with viewer := clear_highlights st.viewer }
  if senderIsCurrent then { st1 with ttsWorker := none } else st1

/-- Externally visible actions of on_request_speak: acknowledging a worker
(on_segment_complete), speaking on the engine, or emitting the error
signal on a worker. -/
inductive SpeakAction : Type where
  | ack (wId : Nat) : SpeakAction
  | speak (text : String) : SpeakAction
  | errorTo (wId : Nat) : SpeakAction
deriving DecidableEq

/-- Environment of on_request_speak: the readiness check, whether
stop_requested is observed set at the re-reads before and after the
speech, and whether say/runAndWait completes without exception. -/
structure SpeakEnv : Type where
  ensure : EnsureEnv
  stopPre : Bool
  speakOk : Bool
  stopPost : Bool

/-- MainWindow.on_request_speak (main.py:740-825).  wId identifies the
requesting worker, wStop is its stop_requested flag when the request is
examined.  Steps 1-3 swallow requests from stopped, globally-stopping or
stale workers with a bare acknowledgement; step 4 checks the engine;
steps 5-6 speak and then acknowledge or report failure. -/
def on_request_speak (st : MainState) (wId : Nat) (wStop : Bool) (text : String)
    (env : SpeakEnv) : MainState × List SpeakAction :=
  if wStop then (st, [SpeakAction.ack wId])
  else if st.isStopping then (st, [SpeakAction.ack wId])
  else if (match st.ttsWorker with | some c => c != wId | none => false) then
    (st, [SpeakAction.ack wId])
  else
    let r := ensure_tts_engine_ready st.eng env.ensure
    let st2 : MainState := { st with eng := r.1 }
    if !r.2 then
      if !(wStop || env.stopPre) then (st2, [SpeakAction.errorTo wId])
      else (st2, [SpeakAction.ack wId])
    else if wStop || env.stopPre then (st2, [SpeakAction.ack wId])
    else
      if wStop || env.stopPre || env.stopPost then
        (st2, [SpeakAction.speak text, SpeakAction.ack wId])
      else if env.speakOk then (st2, [SpeakAction.speak text, SpeakAction.ack wId])
      else (st2, [SpeakAction.speak text, SpeakAction.errorTo wId])

/-! Concrete environments used by witnesses and counterexamples. -/

/-- An environment in which every segment completes at the first poll and no
stop is ever observed. -/
def envAllComplete : Nat → SegBehavior :=
  fun _ => ⟨false, fun _ => true, fun _ => false⟩

/-- Flag behaviour of a segment that completes immediately. -/
def completeBehavior : SegBehavior := ⟨false, fun _ => true, fun _ => false⟩

/-- Flag behaviour of a segment whose wait observes the stop request at the
first poll and never observes completion. -/
def stopBehavior : SegBehavior := ⟨false, fun _ => false, fun _ => true⟩

/-- Environment where segment 0 completes and the stop request arrives
during the wait for segment 1. -/
def envStopAt1 : Nat → SegBehavior :=
  fun i => if i = 0 then completeBehavior else stopBehavior

/-- An InitEnv in which every initialization step succeeds. -/
def allOkInit : InitEnv := ⟨true, true, true, true, true⟩

/-- A speak environment with a live engine, a passing probe, successful
speech and no stop observed at the re-reads. -/
def benignSpeakEnv : SpeakEnv := ⟨⟨true, allOkInit⟩, false, true, false⟩

/-- A coordinator state with no registered current worker, not stopping,
holding the engine from construction number 0. -/
def noWorkerState : MainState := ⟨none, false, ⟨some 0, 1⟩, ⟨[]⟩⟩

/-- A coordinator state whose current worker is worker 0. -/
def staleReqState : MainState := ⟨some 0, false, ⟨some 0, 1⟩, ⟨[]⟩⟩

/-- An engine handle constructed exactly once and still alive. -/
def healthyEngine : EngineState := ⟨some 0, 1⟩

/-- A start environment where the readiness probe and the pre-speak test
both succeed. -/
def benignStartEnv : StartEnv := ⟨⟨true, allOkInit⟩, true, allOkInit, true⟩

/-- The coordinator state right when a segment-timeout error signal arrives:
worker 5 still registered, engine alive from construction 0. -/
def postTimeoutState : MainState := ⟨some 5, false, healthyEngine, ⟨[]⟩⟩

/-! Helper lemmas. -/

/-- The started index the source emits never exceeds the loop index. -/
theorem startIndex_le (w : Bool) (i : Nat) : startIndex w i ≤ i := by
  unfold startIndex
  split
  · split <;> omega
  · omega

/-- The polling loop adds at most its fuel to the counter. -/
theorem waitFrom_le (cf sf : Nat → Bool) :
    ∀ (f c : Nat), waitFrom cf sf c f ≤ c + f := by
  intro f
  induction f with
  | zero => intro c; simp [waitFrom]
  | succ n ih =>
    intro c
    unfold waitFrom
    split
    · omega
    · have := ih (c + 1)
      omega

/-- With both flags constantly false the polling loop consumes all its
fuel: the counter advances by exactly the fuel. -/
theorem waitFrom_allFalse :
    ∀ (f c : Nat), waitFrom (fun _ => false) (fun _ => false) c f = c + f := by
  intro f
  induction f with
  | zero => intro c; simp [waitFrom]
  | succ n ih =>
    intro c
    unfold waitFrom
    simp only [Bool.or_self, Bool.false_eq_true, if_false]
    rw [ih (c + 1)]
    omega

/-- Each loop iteration emits at most three signals. -/
theorem runAux_length (w : Bool) (env : Nat → SegBehavior) :
    ∀ (segs : List String) (i : Nat),
      (TTSWorker.runAux w env i segs).length ≤ 3 * segs.length := by
  intro segs
  induction segs with
  | nil => intro i; simp [TTSWorker.runAux]
  | cons t rest ih =>
    intro i
    unfold TTSWorker.runAux
    split
    · simp
    · cases hw : segWait (env i) with
      | stopped => simp [hw]; omega
      | timeout => simp [hw]
      | completed =>
        have := ih (i + 1)
        simp [hw]
        omega

/-! Claim theorems. -/

/-- C6: for the empty segment list, TTSWorker.run emits no started,
finished-segment, error or speech-request signal — exactly the single
terminal finished signal. -/
theorem C6_empty_run (w : Bool) (env : Nat → SegBehavior) :
    TTSWorker.run w env [] = [Event.finished] := rfl

/-- C9: highlight_text_box and clear_highlights, from any initial viewer
state and for any argument, leave at most one highlighted polygon:
highlight_boxes has length 0 or 1 afterwards. -/
theorem C9_highlight_at_most_one (st : PDFViewerState) (v : PyVal) :
    ((highlight_text_box st v).highlight_boxes.length = 0 ∨
      (highlight_text_box st v).highlight_boxes.length = 1) ∧
    (clear_highlights st).highlight_boxes.length = 0 := by
  constructor
  · unfold highlight_text_box
    split <;> simp
  · unfold clear_highlights
    split
    · rename_i h
      simp [List.isEmpty_iff.mp h]
    · simp

/-- C10: any argument failing the validity check (None, the empty list, any
non-list, or a list with a malformed element) makes highlight_text_box
return normally with highlight_boxes left empty, clearing any previous
highlight. -/
theorem C10_invalid_arg_clears (st : PDFViewerState) (v : PyVal)
    (h : isValidBoxArg v = false) :
    (highlight_text_box st v).highlight_boxes = [] := by
  unfold highlight_text_box
  simp [h]

/-- Witness for C10: the argument None, with a highlight previously set. -/
theorem C10_invalid_arg_clears_witness :
    isValidBoxArg PyVal.pyNone = false ∧
    (highlight_text_box ⟨[PyVal.pyInt 3]⟩ PyVal.pyNone).highlight_boxes = [] :=
  ⟨rfl, C10_invalid_arg_clears ⟨[PyVal.pyInt 3]⟩ PyVal.pyNone rfl⟩

/-- C1 (code bug): with the process-global was_stopped flag still set from an
earlier stopped generation, a fully completed two-segment run emits
text_segment_started(0) twice — the second start carries index 0 instead
of 1 — so the advertised trace is not produced. -/
theorem C1_wasStopped_misindexes_start :
    notifs (TTSWorker.run true envAllComplete ["a", "b"]) =
      [Event.started 0, Event.finishedSeg 0, Event.started 0,
        Event.finishedSeg 1, Event.finished] ∧
    notifs (TTSWorker.run true envAllComplete ["a", "b"]) ≠
      [Event.started 0, Event.finishedSeg 0, Event.started 1,
        Event.finishedSeg 1, Event.finished] := by
  constructor <;> decide

/-- C7: every per-segment wait performs at most 300 polls of 100 time-units;
when neither completion nor stop ever arrives it performs exactly 300
polls and exits; and a run over any finite segment list is a finite trace
of at most 3N+1 signals. -/
theorem C7_bounded_waits (cf sf : Nat → Bool) (w : Bool)
    (env : Nat → SegBehavior) (segs : List String) :
    waitCounter cf sf ≤ 300 ∧
    waitCounter (fun _ => false) (fun _ => false) = 300 ∧
    (TTSWorker.run w env segs).length ≤ 3 * segs.length + 1 := by
  refine ⟨?_, by simp [waitCounter, waitFrom_allFalse], ?_⟩
  · have := waitFrom_le cf sf 300 0
    simpa [waitCounter] using this
  · have := runAux_length w env segs 0
    simp only [TTSWorker.run, List.length_append, List.length_singleton]
    omega

/-- C8: whenever _init_tts_engine fails at any step it returns False with
tts_engine left as None; whenever it returns True, every step — in
particular the near-silent self-test — completed. -/
theorem C8_init_engine_contract (st : EngineState) (env : InitEnv) :
    ((init_tts_engine st env).2 = false → (init_tts_engine st env).1.engine = none) ∧
    ((init_tts_engine st env).2 = true →
      env.constructOk = true ∧ env.voicesOk = true ∧ env.setVoiceOk = true ∧
        env.setRateOk = true ∧ env.pingOk = true) := by
  unfold init_tts_engine
  rcases env with ⟨c, v, sv, sr, p⟩
  cases c <;> cases v <;> cases sv <;> cases sr <;> cases p <;> simp

/-- Witness for C8: a failing self-test leaves no engine; a fully successful
initialization implies the self-test ran. -/
theorem C8_init_engine_contract_witness :
    ((init_tts_engine ⟨none, 0⟩ ⟨true, true, true, true, false⟩).1.engine = none) ∧
    ((⟨true, true, true, true, true⟩ : InitEnv).pingOk = true) :=
  ⟨(C8_init_engine_contract ⟨none, 0⟩ ⟨true, true, true, true, false⟩).1 rfl,
    ((C8_init_engine_contract ⟨none, 0⟩ ⟨true, true, true, true, true⟩).2 rfl).2.2.2.2⟩

/-- C3 (counterexample): when no worker is registered as current
(ttsWorker is None), a request from a worker — which is therefore not the
currently active one — that is not stop-requested is not swallowed: the
engine speaks. -/
theorem C3_counterexample :
    noWorkerState.ttsWorker ≠ some 7 ∧
    SpeakAction.speak "hi" ∈
      (on_request_speak noWorkerState 7 false "hi" benignSpeakEnv).2 := by
  constructor <;> decide

/-- C3 (amended): a request from a stop-requested worker, from any worker
while a global stop is in progress, or from a worker different from a
registered current worker, is answered by exactly one acknowledgement and
changes nothing: no speech, no error signal, same coordinator state. -/
theorem C3_stale_request_inert (st : MainState) (wId : Nat) (wStop : Bool)
    (text : String) (env : SpeakEnv)
    (h : wStop = true ∨ st.isStopping = true ∨
      (∃ c, st.ttsWorker = some c ∧ c ≠ wId)) :
    on_request_speak st wId wStop text env = (st, [SpeakAction.ack wId]) := by
  unfold on_request_speak
  rcases h with h | h | ⟨c, hc, hne⟩
  · simp [h]
  · by_cases hw : wStop
    · simp [hw]
    · simp [hw, h]
  · by_cases hw : wStop
    · simp [hw]
    · by_cases hs : st.isStopping
      · simp [hw, hs]
      · simp [hw, hs, hc, hne]

/-- Witness for C3 (amended): worker 7 requests while worker 0 is current. -/
theorem C3_stale_request_inert_witness :
    (staleReqState.ttsWorker = some 0 ∧ (0 : Nat) ≠ 7) ∧
    on_request_speak staleReqState 7 false "hi" benignSpeakEnv =
      (staleReqState, [SpeakAction.ack 7]) :=
  ⟨⟨rfl, by decide⟩,
    C3_stale_request_inert staleReqState 7 false "hi" benignSpeakEnv
      (Or.inr (Or.inr ⟨0, rfl, by decide⟩))⟩

/-- C4 (counterexample): after a generation ends with the segment-timeout
error, on_tts_error leaves the engine untouched, and the next generation —
its readiness check, its pre-speak test, and the readiness check inside
its first speech request — all reuse the same constructed engine: the
construction count stays at 1, so no fresh engine is made before the
first speech request. -/
theorem C4_counterexample :
    (on_tts_error postTimeoutState true).eng = healthyEngine ∧
    start_tts_engine_phase healthyEngine benignStartEnv = (healthyEngine, true) ∧
    ensure_tts_engine_ready healthyEngine ⟨true, allOkInit⟩ = (healthyEngine, true) ∧
    healthyEngine.initCount = 1 :=
  ⟨rfl, rfl, rfl, rfl⟩

/-- C4 (amended): a segment-timeout error does not force reinitialization:
on_tts_error never changes the engine, and the next generation keeps the
identical engine state whenever the handle is alive and the readiness
probe and pre-speak test succeed — a fresh engine is constructed only
when the handle is gone or one of those checks fails. -/
theorem C4_no_forced_reinit (st : MainState) (b : Bool) (eng : EngineState)
    (env : StartEnv) (e : Nat) (h1 : eng.engine = some e)
    (h2 : env.ensure1.probeOk = true) (h3 : env.preSpeakOk = true) :
    (on_tts_error st b).eng = st.eng ∧
    start_tts_engine_phase eng env = (eng, true) := by
  constructor
  · unfold on_tts_error
    split <;> rfl
  · unfold start_tts_engine_phase ensure_tts_engine_ready
    simp [h1, h2, h3]

/-- Witness for C4 (amended): the healthy once-constructed engine with a
benign environment. -/
theorem C4_no_forced_reinit_witness :
    (healthyEngine.engine = some 0 ∧ benignStartEnv.ensure1.probeOk = true ∧
      benignStartEnv.preSpeakOk = true) ∧
    ((on_tts_error postTimeoutState true).eng = postTimeoutState.eng ∧
      start_tts_engine_phase healthyEngine benignStartEnv = (healthyEngine, true)) :=
  ⟨⟨rfl, rfl, rfl⟩,
    C4_no_forced_reinit postTimeoutState true healthyEngine benignStartEnv 0 rfl rfl rfl⟩

/-- If every segment before start + k completes normally and the wait for
segment start + k observes the stop request, the loop from start emits no
started signal with index above start + k and no finished-segment signal
for start + k. -/
theorem runAux_stop_bound (w : Bool) (env : Nat → SegBehavior) :
    ∀ (segs : List String) (start k : Nat), k < segs.length →
      (∀ d, d < k → (env (start + d)).stopAtTop = false ∧
        segWait (env (start + d)) = WaitResult.completed) →
      (env (start + k)).stopAtTop = false →
      segWait (env (start + k)) = WaitResult.stopped →
      (∀ j, Event.started j ∈ TTSWorker.runAux w env start segs → j ≤ start + k) ∧
      Event.finishedSeg (start + k) ∉ TTSWorker.runAux w env start segs := by
  intro segs
  induction segs with
  | nil =>
    intro start k hk _ _ _
    simp at hk
  | cons t rest ih =>
    intro start k hk hprev htop hstop
    rcases k with _ | k0
    · have htop0 : (env start).stopAtTop = false := by simpa using htop
      have hstop0 : segWait (env start) = WaitResult.stopped := by simpa using hstop
      unfold TTSWorker.runAux
      rw [htop0]
      simp only [Bool.false_eq_true, if_false, hstop0]
      constructor
      · intro j hj
        have hle := startIndex_le w start
        simp only [List.mem_cons, List.not_mem_nil, or_false] at hj
        rcases hj with hj | hj
        · simp only [Event.started.injEq] at hj
          omega
        · exact absurd hj (by simp)
      · intro hmem
        simp only [List.mem_cons, List.not_mem_nil, or_false] at hmem
        rcases hmem with hmem | hmem
        · exact absurd hmem (by simp)
        · exact absurd hmem (by simp)
    · have h0 : (env start).stopAtTop = false ∧
          segWait (env start) = WaitResult.completed := by
        have := hprev 0 (by omega)
        simpa using this
      have hprevShift : ∀ d, d < k0 → (env (start + 1 + d)).stopAtTop = false ∧
          segWait (env (start + 1 + d)) = WaitResult.completed := by
        intro d hd
        have := hprev (d + 1) (by omega)
        have harith : start + (d + 1) = start + 1 + d := by omega
        rwa [harith] at this
      have htopShift : (env (start + 1 + k0)).stopAtTop = false := by
        have harith : start + 1 + k0 = start + (k0 + 1) := by omega
        rw [harith]; exact htop
      have hstopShift : segWait (env (start + 1 + k0)) = WaitResult.stopped := by
        have harith : start + 1 + k0 = start + (k0 + 1) := by omega
        rw [harith]; exact hstop
      have hIH := ih (start + 1) k0 (by simpa using hk) hprevShift htopShift hstopShift
      unfold TTSWorker.runAux
      rw [h0.1]
      simp only [Bool.false_eq_true, if_false, h0.2]
      constructor
      · intro j hj
        have hle := startIndex_le w start
        simp only [List.mem_cons] at hj
        rcases hj with hj | hj | hj | hj
        · simp only [Event.started.injEq] at hj
          omega
        · exact absurd hj (by simp)
        · exact absurd hj (by simp)
        · have := hIH.1 j hj
          omega
      · intro hmem
        simp only [List.mem_cons] at hmem
        rcases hmem with hmem | hmem | hmem | hmem
        · exact absurd hmem (by simp)
        · exact absurd hmem (by simp)
        · simp only [Event.finishedSeg.injEq] at hmem
          omega
        · have harith : start + 1 + k0 = start + (k0 + 1) := by omega
          rw [harith] at hIH
          exact hIH.2 hmem

/-- C5: if all segments before k complete normally and the stop request is
observed during the completion wait for segment k, the run emits no
started signal with index above k and no finished-segment signal for k,
and its last emitted signal is the terminal finished. -/
theorem C5_stop_during_wait (w : Bool) (env : Nat → SegBehavior)
    (segs : List String) (k : Nat) (hk : k < segs.length)
    (hprev : ∀ d, d < k → (env d).stopAtTop = false ∧
      segWait (env d) = WaitResult.completed)
    (htop : (env k).stopAtTop = false)
    (hstop : segWait (env k) = WaitResult.stopped) :
    (∀ j, Event.started j ∈ TTSWorker.run w env segs → j ≤ k) ∧
    Event.finishedSeg k ∉ TTSWorker.run w env segs ∧
    (TTSWorker.run w env segs).getLast? = some Event.finished := by
  have h := runAux_stop_bound w env segs 0 k hk (by simpa using hprev)
    (by simpa using htop) (by simpa using hstop)
  refine ⟨?_, ?_, ?_⟩
  · intro j hj
    unfold TTSWorker.run at hj
    rcases List.mem_append.mp hj with hj | hj
    · have := h.1 j hj
      omega
    · simp at hj
  · intro hmem
    unfold TTSWorker.run at hmem
    rcases List.mem_append.mp hmem with hmem | hmem
    · have h2 : Event.finishedSeg k ∉ TTSWorker.runAux w env 0 segs := by
        simpa using h.2
      exact h2 hmem
    · simp at hmem
  · unfold TTSWorker.run
    exact List.getLast?_concat _

/-- Witness for C5: three segments, segment 0 completes, the stop request is
observed while waiting for segment 1. -/
theorem C5_stop_during_wait_witness :
    ((1 : Nat) < (["a", "b", "c"] : List String).length ∧
      (∀ d, d < 1 → (envStopAt1 d).stopAtTop = false ∧
        segWait (envStopAt1 d) = WaitResult.completed) ∧
      (envStopAt1 1).stopAtTop = false ∧
      segWait (envStopAt1 1) = WaitResult.stopped) ∧
    ((∀ j, Event.started j ∈ TTSWorker.run false envStopAt1 ["a", "b", "c"] → j ≤ 1) ∧
      Event.finishedSeg 1 ∉ TTSWorker.run false envStopAt1 ["a", "b", "c"] ∧
      (TTSWorker.run false envStopAt1 ["a", "b", "c"]).getLast? = some Event.finished) :=
  ⟨⟨by decide, by decide, by decide, by decide⟩,
    C5_stop_during_wait false envStopAt1 ["a", "b", "c"] 1
      (by decide) (by decide) (by decide) (by decide)⟩

/-- The lexicographic key comparison is transitive. -/
theorem lexLE_trans (a b c : ℤ × ℚ) (h1 : lexLE a b = true)
    (h2 : lexLE b c = true) : lexLE a c = true := by
  simp only [lexLE, Bool.or_eq_true, Bool.and_eq_true, decide_eq_true_eq] at h1 h2 ⊢
  rcases h1 with h1 | ⟨h1a, h1b⟩
  · rcases h2 with h2 | ⟨h2a, h2b⟩
    · exact Or.inl (lt_trans h1 h2)
    · exact Or.inl (by rw [← h2a]; exact h1)
  · rcases h2 with h2 | ⟨h2a, h2b⟩
    · exact Or.inl (by rw [h1a]; exact h2)
    · exact Or.inr ⟨h1a.trans h2a, le_trans h1b h2b⟩

/-- The lexicographic key comparison is total. -/
theorem lexLE_total (a b : ℤ × ℚ) : (lexLE a b || lexLE b a) = true := by
  simp only [lexLE, Bool.or_eq_true, Bool.and_eq_true, decide_eq_true_eq]
  rcases lt_trichotomy a.1 b.1 with h | h | h
  · exact Or.inl (Or.inl h)
  · rcases le_total a.2 b.2 with h2 | h2
    · exact Or.inl (Or.inr ⟨h, h2⟩)
    · exact Or.inr (Or.inr ⟨h.symm, h2⟩)
  · exact Or.inr (Or.inl h)

/-- The entry comparison used by the sort is transitive. -/
theorem entryLE_trans (a b c : TextDataEntry) (h1 : entryLE a b = true)
    (h2 : entryLE b c = true) : entryLE a c = true :=
  lexLE_trans _ _ _ h1 h2

/-- The entry comparison used by the sort is total. -/
theorem entryLE_total (a b : TextDataEntry) : (entryLE a b || entryLE b a) = true :=
  lexLE_total _ _

/-- A detector line kept by the sorter, with confidence exactly one half. -/
def halfConfLine : OcrLine := ⟨[(0, 0), (2, 0), (2, 2), (0, 2)], "a", 1 / 2⟩

/-- C2 (counterexample): a detector entry with confidence exactly 0.5 and
non-empty trimmed text is discarded by the sorter — the comparison at
main.py:413 is strict — although the claim requires it to be kept. -/
theorem C2_counterexample :
    halfConfLine.conf = 1 / 2 ∧ pyStrip halfConfLine.text ≠ "" ∧
    runOcrSegments [halfConfLine] = [] := by
  refine ⟨rfl, by decide, ?_⟩
  have hconf : confKeep halfConfLine = false := by
    simp [confKeep, halfConfLine]
  simp [runOcrSegments, runOcrEntries, mkTextData, List.filter, hconf]

/-- C2 (amended): the sorter emits exactly the detector entries whose
confidence is strictly greater than 0.5 and whose text is non-empty after
trimming, as (text, box) pairs ordered ascending by the key
(floor of y-centroid over 20, x-centroid); the order of each segment is
its 0-based position in this list. -/
theorem C2_sorter_amended (lines : List OcrLine) :
    (runOcrSegments lines).Perm
      ((lines.filter (fun l => confKeep l && ((l.text != "") && (pyStrip l.text != "")))).map
        (fun l => (l.text, l.box))) ∧
    List.Pairwise (fun p q : String × List (ℚ × ℚ) =>
      lexLE (boxKey p.2) (boxKey q.2) = true) (runOcrSegments lines) := by
  constructor
  · have hperm : ((mkTextData lines).mergeSort entryLE).Perm (mkTextData lines) :=
      List.mergeSort_perm _ _
    have h1 : (runOcrEntries lines).Perm ((mkTextData lines).filter keepText) :=
      List.Perm.filter keepText hperm
    have h2 : (runOcrSegments lines).Perm
        (((mkTextData lines).filter keepText).map (fun e => (e.text, e.box))) :=
      List.Perm.map _ h1
    have h3 : (mkTextData lines).filter keepText =
        (lines.filter (fun l => confKeep l && ((l.text != "") && (pyStrip l.text != "")))).map
          (fun l => (⟨l.box, l.text, l.conf, yCenter l.box, xCenter l.box⟩ : TextDataEntry)) := by
      unfold mkTextData
      rw [List.filter_map, List.filter_filter]
      congr 1
      apply List.filter_congr
      intro x _
      simp [keepText, Function.comp, Bool.and_comm]
    rw [h3, List.map_map] at h2
    exact h2
  · have hsorted : List.Pairwise (fun a b => entryLE a b = true)
        ((mkTextData lines).mergeSort entryLE) :=
      List.sorted_mergeSort entryLE_trans entryLE_total _
    have hsub : (runOcrEntries lines).Sublist ((mkTextData lines).mergeSort entryLE) :=
      List.filter_sublist _
    have hsorted2 : List.Pairwise (fun a b => entryLE a b = true) (runOcrEntries lines) :=
      List.Pairwise.sublist hsub hsorted
    have hwf : ∀ e ∈ runOcrEntries lines, entryKey e = boxKey e.box := by
      intro e he
      have he2 : e ∈ (mkTextData lines).mergeSort entryLE := List.Sublist.mem he hsub
      have he3 : e ∈ mkTextData lines := (List.mergeSort_perm _ _).mem_iff.mp he2
      unfold mkTextData at he3
      rcases List.mem_map.mp he3 with ⟨l, _, rfl⟩
      rfl
    have hsorted3 : List.Pairwise
        (fun a b : TextDataEntry => lexLE (boxKey a.box) (boxKey b.box) = true)
        (runOcrEntries lines) := by
      refine List.Pairwise.imp_of_mem ?_ hsorted2
      intro a b ha hb hab
      rw [← hwf a ha, ← hwf b hb]
      exact hab
    unfold runOcrSegments
    rw [List.pairwise_map]
    exact hsorted3

end Pdftts
